import Mathlib

/-!
Verification of the complete-sign-up view and the FxDesktopV1 sender
of the fxa-content-server front-end, as a shallow embedding in Lean 4.

The embedded code lives in `src/app/scripts/views/complete_sign_up.js`
(the `CompleteSignUpView` Backbone view and the `FxDesktopV1Sender`
module).  Supporting libraries (`lib/auth-errors`,
`lib/marketing-email-errors`, `models/verification/sign-up`,
`views/mixins/verification-reason-mixin`) are not part of the source
excerpt; their small surface used here is modelled from the spec.
-/

namespace FxaContentServer

/-- Modelled from the spec: `lib/auth-errors` is not in the source
excerpt.  An error object carries the namespace of the module that
created it (for instance the auth server, or the basket
marketing-email service) and its error name within that namespace. -/
structure ErrObj where
  namespc : String
  errname : String
deriving DecidableEq, Repr

namespace AuthErrors

/-- Modelled from the spec: `AuthErrors.is(err, name)` tests whether
`err` is the auth error called `name`. -/
def is (e : ErrObj) (name : String) : Bool :=
  e.namespc == "auth" && e.errname == name

/-- Modelled from the spec: `AuthErrors.toError(name)` builds the auth
error called `name`. -/
def toError (name : String) : ErrObj :=
  ⟨"auth", name⟩

end AuthErrors

namespace MarketingEmailErrors

/-- Modelled from the spec: `MarketingEmailErrors.created(err)` tests
whether `err` is a marketing-email (basket) client error. -/
def created (e : ErrObj) : Bool :=
  e.namespc == "basket"

end MarketingEmailErrors

/-- Modelled from the spec: `models/verification/sign-up` is not in the
source excerpt.  The verification info parsed from the query string
"has boolean validity states (valid / expired / used / damaged)":
`paramsOk` records whether every query-string parameter passed
validation, and the three mark flags are set by the view's error
handling. -/
structure VerificationInfo where
  paramsOk : Bool
  damaged : Bool
  expired : Bool
  used : Bool
deriving DecidableEq, Repr

namespace VerificationInfo

/-- `verificationInfo.isValid()`: the parameters validated and the link
has not been marked damaged. -/
def isValid (vi : VerificationInfo) : Bool :=
  vi.paramsOk && !vi.damaged

def isExpired (vi : VerificationInfo) : Bool := vi.expired

def isUsed (vi : VerificationInfo) : Bool := vi.used

def markExpired (vi : VerificationInfo) : VerificationInfo :=
  { vi with expired := true }

def markUsed (vi : VerificationInfo) : VerificationInfo :=
  { vi with used := true }

def markDamaged (vi : VerificationInfo) : VerificationInfo :=
  { vi with damaged := true }

end VerificationInfo

/-- The three verification reasons dispatched on by the view
(`VerificationReasonMixin`; the keys of `BROKER_METHODS`). -/
inductive VerificationReason
  | SIGN_UP
  | SIGN_IN
  | SECONDARY_EMAIL_VERIFIED
deriving DecidableEq, Repr

/-- `CompleteSignUpView.BROKER_METHODS`: the broker method invoked for
each verification reason (complete_sign_up.js lines 233-237). -/
def BROKER_METHODS : VerificationReason → String
  | .SIGN_UP => "afterCompleteSignUp"
  | .SIGN_IN => "afterCompleteSignIn"
  | .SECONDARY_EMAIL_VERIFIED => "afterCompleteAddSecondaryEmail"

/-- `isSignIn()` from `VerificationReasonMixin`: the verification
reason stored in the model is sign-in. -/
def isSignIn (reason : VerificationReason) : Bool :=
  reason == VerificationReason.SIGN_IN

/-- `isSignUp()` from `VerificationReasonMixin`. -/
def isSignUp (reason : VerificationReason) : Bool :=
  reason == VerificationReason.SIGN_UP

/-- Result of `_handleVerificationErrors`: the updated verification
info, the updated `model.error` slot, and the error passed to
`this.logError` at the end. -/
structure HandleErrResult where
  vi : VerificationInfo
  modelError : Option ErrObj
  logged : ErrObj
deriving DecidableEq, Repr

/-- `_handleVerificationErrors(err)` (complete_sign_up.js lines
153-182), as a pure function of the incoming error, the sign-in flag,
the verification info and the current `model.error`. -/
def handleVerificationErrors (err : ErrObj) (signIn : Bool)
    (vi : VerificationInfo) (modelError : Option ErrObj) : HandleErrResult :=
  if AuthErrors.is err "UNKNOWN_ACCOUNT" then
    { vi := vi.markExpired
      modelError := modelError
      logged := AuthErrors.toError "UNKNOWN_ACCOUNT_VERIFICATION" }
  else if AuthErrors.is err "INVALID_VERIFICATION_CODE"
       || AuthErrors.is err "INVALID_PARAMETER" then
    if signIn then
      { vi := vi.markUsed
        modelError := modelError
        logged := AuthErrors.toError "REUSED_SIGNIN_VERIFICATION_CODE" }
    else
      { vi := vi.markDamaged
        modelError := modelError
        logged := AuthErrors.toError "DAMAGED_VERIFICATION_LINK" }
  else
    { vi := vi
      modelError := some err
      logged := err }

/-- `_logAndAbsorbMarketingClientErrors(err)` (lines 109-119): a basket
error is logged and swallowed (`.ok` with the logged errors), any other
error is rethrown unchanged (`.error`). -/
def logAndAbsorbMarketingClientErrors (err : ErrObj) :
    Except ErrObj (List ErrObj) :=
  if MarketingEmailErrors.created err then
    Except.ok [err]
  else
    Except.error err

/-- Observable outcome of `_notifyBrokerAndComplete(account)` (lines
129-140): the view event logged and triggered, whether
`user.setAccount` persisted the account, and the broker method that
`invokeBrokerMethod` was called with. -/
structure NotifyBrokerResult where
  loggedEvents : List String
  accountSaved : Bool
  brokerMethod : String
deriving DecidableEq, Repr

/-- `_notifyBrokerAndComplete`: log and trigger `verification.success`,
persist the account, then invoke the broker method picked by
`_getBrokerMethod` from `BROKER_METHODS` and the verification reason. -/
def notifyBrokerAndComplete (reason : VerificationReason) : NotifyBrokerResult :=
  { loggedEvents := ["verification.success"]
    accountSaved := true
    brokerMethod := BROKER_METHODS reason }

/-- Observable outcome of `beforeRender()` (lines 61-88): the final
verification info and `model.error`, the errors passed to `logError`,
the view events logged, and which steps of the flow ran. -/
structure BeforeRenderResult where
  vi : VerificationInfo
  modelError : Option ErrObj
  loggedErrors : List ErrObj
  loggedEvents : List String
  completeSignUpCalled : Bool
  resumeTokenPopulated : Bool
  accountSaved : Bool
  brokerMethod : Option String
deriving DecidableEq, Repr

/-- `beforeRender()`: abort with a damaged-link error when the query
parameters fail validation; otherwise populate the account from the
resume token and run the promise chain
`completeAccountSignUp → fail(_logAndAbsorbMarketingClientErrors)
→ then(_notifyBrokerAndComplete) → fail(_handleVerificationErrors)`.
The remote call's outcome is the `completeResult` argument. -/
def beforeRender (vi : VerificationInfo) (reason : VerificationReason)
    (modelError : Option ErrObj) (completeResult : Except ErrObj Unit) :
    BeforeRenderResult :=
  if !vi.isValid then
    { vi := vi
      modelError := modelError
      loggedErrors := [AuthErrors.toError "DAMAGED_VERIFICATION_LINK"]
      loggedEvents := []
      completeSignUpCalled := false
      resumeTokenPopulated := false
      accountSaved := false
      brokerMethod := none }
  else
    match completeResult with
    | Except.ok _ =>
        let nb := notifyBrokerAndComplete reason
        { vi := vi
          modelError := modelError
          loggedErrors := []
          loggedEvents := nb.loggedEvents
          completeSignUpCalled := true
          resumeTokenPopulated := true
          accountSaved := nb.accountSaved
          brokerMethod := some nb.brokerMethod }
    | Except.error e =>
        match logAndAbsorbMarketingClientErrors e with
        | Except.ok absorbed =>
            let nb := notifyBrokerAndComplete reason
            { vi := vi
              modelError := modelError
              loggedErrors := absorbed
              loggedEvents := nb.loggedEvents
              completeSignUpCalled := true
              resumeTokenPopulated := true
              accountSaved := nb.accountSaved
              brokerMethod := some nb.brokerMethod }
        | Except.error rethrown =>
            let r := handleVerificationErrors rethrown (isSignIn reason) vi modelError
            { vi := r.vi
              modelError := r.modelError
              loggedErrors := [r.logged]
              loggedEvents := []
              completeSignUpCalled := true
              resumeTokenPopulated := true
              accountSaved := false
              brokerMethod := none }

/-- JS truthiness of `account.get('sessionToken')`: `!!tok` is false
for a missing token and for the empty string. -/
def hasToken : Option String → Bool
  | none => false
  | some s => s != ""

/-- `_hasResendSessionToken()` (lines 206-208): whether a session token
exists for the cached email. -/
def hasResendSessionToken (sessionToken : Option String) : Bool :=
  hasToken sessionToken

/-- `_canResend()` (lines 191-195): a resend session token exists and
the verification reason is sign-up. -/
def canResend (sessionToken : Option String) (reason : VerificationReason) : Bool :=
  hasResendSessionToken sessionToken && isSignUp reason

/-- The rendering context produced by `context()` (lines 90-100). -/
structure ContextData where
  canResend : Bool
  error : Option ErrObj
  isLinkDamaged : Bool
  isLinkExpired : Bool
  isLinkUsed : Bool
deriving DecidableEq, Repr

/-- `context()`: resend eligibility, the stored `model.error`, and the
display flags computed from the verification info. -/
def context (vi : VerificationInfo) (modelError : Option ErrObj)
    (sessionToken : Option String) (reason : VerificationReason) : ContextData :=
  { canResend := canResend sessionToken reason
    error := modelError
    isLinkDamaged := !vi.isValid
    isLinkExpired := vi.isExpired
    isLinkUsed := vi.isUsed }

/-- A DOM CustomEvent as built by `createEvent` in the FxDesktopV1
sender: an event type plus the `detail` payload (which carries
`bubbles`, the command and the data). -/
structure DomEvent where
  eventType : String
  bubbles : Bool
  command : String
  data : String
deriving DecidableEq, Repr

/-- A DOM window, observed through the events dispatched on it. -/
structure DomWindow where
  dispatchedEvents : List DomEvent
deriving DecidableEq, Repr

namespace FxDesktopV1Sender

/-- `createEvent(win, command, data)` (lines 294-302): a
`FirefoxAccountsCommand` CustomEvent whose detail holds `bubbles:
true`, the command and the data.  The messageId argument of the caller
is not read. -/
def createEvent (command : String) (data : String) : DomEvent :=
  { eventType := "FirefoxAccountsCommand"
    bubbles := true
    command := command
    data := data }

/-- `dispatchCommand(command, data, messageId)` (lines 282-286):
dispatch the created event on the window.  `messageId` is passed along
but ignored by `createEvent`. -/
def dispatchCommand (win : DomWindow) (command : String) (data : String)
    (messageId : String) : DomWindow :=
  { dispatchedEvents := win.dispatchedEvents ++ [createEvent command data] }

/-- `send(command, data, messageId)` (lines 276-280): a promise that
dispatches the command on the window. -/
def send (win : DomWindow) (command : String) (data : String)
    (messageId : String) : DomWindow :=
  dispatchCommand win command data messageId

end FxDesktopV1Sender

/-! ### Claims about `_handleVerificationErrors` -/

/-- C1: for every verification error that is the UNKNOWN_ACCOUNT auth
error, `_handleVerificationErrors` marks the verification info expired
and logs the UNKNOWN_ACCOUNT_VERIFICATION ("account not found") error,
which is not the original error. -/
theorem C1_unknown_account_marks_expired
    (err : ErrObj) (signIn : Bool) (vi : VerificationInfo) (me : Option ErrObj)
    (h : AuthErrors.is err "UNKNOWN_ACCOUNT" = true) :
    (handleVerificationErrors err signIn vi me).vi.isExpired = true ∧
    (handleVerificationErrors err signIn vi me).logged
      = AuthErrors.toError "UNKNOWN_ACCOUNT_VERIFICATION" ∧
    (handleVerificationErrors err signIn vi me).logged ≠ err := by
  have h' := h
  simp only [AuthErrors.is, Bool.and_eq_true, beq_iff_eq] at h'
  obtain ⟨hns, hname⟩ := h'
  refine ⟨?_, ?_, ?_⟩
  · simp [handleVerificationErrors, h, VerificationInfo.markExpired,
      VerificationInfo.isExpired]
  · simp [handleVerificationErrors, h]
  · simp only [handleVerificationErrors, h, if_true]
    intro heq
    rw [← heq] at hname
    simp [AuthErrors.toError] at hname

/-- C1 witness at the concrete UNKNOWN_ACCOUNT auth error. -/
theorem C1_witness :
    (handleVerificationErrors ⟨"auth", "UNKNOWN_ACCOUNT"⟩ false
        ⟨true, false, false, false⟩ none).vi.isExpired = true ∧
    (handleVerificationErrors ⟨"auth", "UNKNOWN_ACCOUNT"⟩ false
        ⟨true, false, false, false⟩ none).logged
      = AuthErrors.toError "UNKNOWN_ACCOUNT_VERIFICATION" ∧
    (handleVerificationErrors ⟨"auth", "UNKNOWN_ACCOUNT"⟩ false
        ⟨true, false, false, false⟩ none).logged
      ≠ (⟨"auth", "UNKNOWN_ACCOUNT"⟩ : ErrObj) :=
  C1_unknown_account_marks_expired _ _ _ _ (by decide)

/-- C2: for every INVALID_VERIFICATION_CODE or INVALID_PARAMETER error
in a sign-in flow, `_handleVerificationErrors` marks the verification
info used and logs the REUSED_SIGNIN_VERIFICATION_CODE error. -/
theorem C2_signin_invalid_code_marks_used
    (err : ErrObj) (vi : VerificationInfo) (me : Option ErrObj)
    (h : AuthErrors.is err "INVALID_VERIFICATION_CODE" = true ∨
         AuthErrors.is err "INVALID_PARAMETER" = true) :
    (handleVerificationErrors err true vi me).vi.isUsed = true ∧
    (handleVerificationErrors err true vi me).logged
      = AuthErrors.toError "REUSED_SIGNIN_VERIFICATION_CODE" := by
  have hno : AuthErrors.is err "UNKNOWN_ACCOUNT" = false := by
    rcases h with h | h <;>
    · simp only [AuthErrors.is, Bool.and_eq_true, beq_iff_eq] at h
      simp [AuthErrors.is, h.2]
  rcases h with h | h <;>
    simp [handleVerificationErrors, hno, h, VerificationInfo.markUsed,
      VerificationInfo.isUsed]

/-- C2 witness at the concrete INVALID_VERIFICATION_CODE auth error. -/
theorem C2_witness :
    (handleVerificationErrors ⟨"auth", "INVALID_VERIFICATION_CODE"⟩ true
        ⟨true, false, false, false⟩ none).vi.isUsed = true ∧
    (handleVerificationErrors ⟨"auth", "INVALID_VERIFICATION_CODE"⟩ true
        ⟨true, false, false, false⟩ none).logged
      = AuthErrors.toError "REUSED_SIGNIN_VERIFICATION_CODE" :=
  C2_signin_invalid_code_marks_used _ _ _ (Or.inl (by decide))

/-- C3: for every INVALID_VERIFICATION_CODE or INVALID_PARAMETER error
outside a sign-in flow, `_handleVerificationErrors` marks the
verification info damaged (so `isValid` becomes false and the rendered
`isLinkDamaged` is true) and logs the DAMAGED_VERIFICATION_LINK
error. -/
theorem C3_non_signin_invalid_code_marks_damaged
    (err : ErrObj) (vi : VerificationInfo) (me : Option ErrObj)
    (sessionToken : Option String) (reason : VerificationReason)
    (h : AuthErrors.is err "INVALID_VERIFICATION_CODE" = true ∨
         AuthErrors.is err "INVALID_PARAMETER" = true) :
    (handleVerificationErrors err false vi me).vi.damaged = true ∧
    (handleVerificationErrors err false vi me).vi.isValid = false ∧
    (context (handleVerificationErrors err false vi me).vi me
        sessionToken reason).isLinkDamaged = true ∧
    (handleVerificationErrors err false vi me).logged
      = AuthErrors.toError "DAMAGED_VERIFICATION_LINK" := by
  have hno : AuthErrors.is err "UNKNOWN_ACCOUNT" = false := by
    rcases h with h | h <;>
    · simp only [AuthErrors.is, Bool.and_eq_true, beq_iff_eq] at h
      simp [AuthErrors.is, h.2]
  rcases h with h | h <;>
    simp [handleVerificationErrors, hno, h, VerificationInfo.markDamaged,
      VerificationInfo.isValid, context]

/-- C3 witness at the concrete INVALID_PARAMETER auth error. -/
theorem C3_witness :
    (handleVerificationErrors ⟨"auth", "INVALID_PARAMETER"⟩ false
        ⟨true, false, false, false⟩ none).vi.damaged = true ∧
    (handleVerificationErrors ⟨"auth", "INVALID_PARAMETER"⟩ false
        ⟨true, false, false, false⟩ none).vi.isValid = false ∧
    (context (handleVerificationErrors ⟨"auth", "INVALID_PARAMETER"⟩ false
        ⟨true, false, false, false⟩ none).vi none none
        VerificationReason.SIGN_UP).isLinkDamaged = true ∧
    (handleVerificationErrors ⟨"auth", "INVALID_PARAMETER"⟩ false
        ⟨true, false, false, false⟩ none).logged
      = AuthErrors.toError "DAMAGED_VERIFICATION_LINK" :=
  C3_non_signin_invalid_code_marks_damaged _ _ _ _ _ (Or.inr (by decide))

/-- C5: for every error that is none of UNKNOWN_ACCOUNT,
INVALID_VERIFICATION_CODE and INVALID_PARAMETER,
`_handleVerificationErrors` stores the error itself in `model.error`,
logs it unmodified, and leaves the verification info unchanged. -/
theorem C5_other_errors_displayed_as_is
    (err : ErrObj) (signIn : Bool) (vi : VerificationInfo) (me : Option ErrObj)
    (h1 : AuthErrors.is err "UNKNOWN_ACCOUNT" = false)
    (h2 : AuthErrors.is err "INVALID_VERIFICATION_CODE" = false)
    (h3 : AuthErrors.is err "INVALID_PARAMETER" = false) :
    (handleVerificationErrors err signIn vi me).modelError = some err ∧
    (handleVerificationErrors err signIn vi me).logged = err ∧
    (handleVerificationErrors err signIn vi me).vi = vi := by
  simp [handleVerificationErrors, h1, h2, h3]

/-- C5 witness at a concrete unrelated auth error. -/
theorem C5_witness :
    (handleVerificationErrors ⟨"auth", "UNEXPECTED_ERROR"⟩ false
        ⟨true, false, false, false⟩ none).modelError
      = some ⟨"auth", "UNEXPECTED_ERROR"⟩ ∧
    (handleVerificationErrors ⟨"auth", "UNEXPECTED_ERROR"⟩ false
        ⟨true, false, false, false⟩ none).logged
      = ⟨"auth", "UNEXPECTED_ERROR"⟩ ∧
    (handleVerificationErrors ⟨"auth", "UNEXPECTED_ERROR"⟩ false
        ⟨true, false, false, false⟩ none).vi
      = ⟨true, false, false, false⟩ :=
  C5_other_errors_displayed_as_is _ _ _ _ (by decide) (by decide) (by decide)

/-! ### Claims about the rest of the completion flow -/

/-- C4: a marketing-email (basket) client error raised by the
complete-sign-up call is logged and absorbed, so the broker is still
notified and no error is stored for display; any other error is
rethrown unchanged. -/
theorem C4_marketing_errors_absorbed
    (err : ErrObj) (vi : VerificationInfo) (reason : VerificationReason)
    (hv : vi.isValid = true) :
    (MarketingEmailErrors.created err = true →
      logAndAbsorbMarketingClientErrors err = Except.ok [err] ∧
      (beforeRender vi reason none (Except.error err)).brokerMethod
        = some (BROKER_METHODS reason) ∧
      (beforeRender vi reason none (Except.error err)).modelError = none ∧
      (beforeRender vi reason none (Except.error err)).loggedErrors = [err]) ∧
    (MarketingEmailErrors.created err = false →
      logAndAbsorbMarketingClientErrors err = Except.error err) := by
  constructor
  · intro hm
    refine ⟨by simp [logAndAbsorbMarketingClientErrors, hm], ?_, ?_, ?_⟩ <;>
      simp [beforeRender, hv, logAndAbsorbMarketingClientErrors, hm,
        notifyBrokerAndComplete]
  · intro hm
    simp [logAndAbsorbMarketingClientErrors, hm]

/-- C4 witness at a concrete basket error and a valid link. -/
theorem C4_witness :
    (MarketingEmailErrors.created ⟨"basket", "UNKNOWN_ERROR"⟩ = true →
      logAndAbsorbMarketingClientErrors ⟨"basket", "UNKNOWN_ERROR"⟩
        = Except.ok [⟨"basket", "UNKNOWN_ERROR"⟩] ∧
      (beforeRender ⟨true, false, false, false⟩ VerificationReason.SIGN_UP none
          (Except.error ⟨"basket", "UNKNOWN_ERROR"⟩)).brokerMethod
        = some (BROKER_METHODS VerificationReason.SIGN_UP) ∧
      (beforeRender ⟨true, false, false, false⟩ VerificationReason.SIGN_UP none
          (Except.error ⟨"basket", "UNKNOWN_ERROR"⟩)).modelError = none ∧
      (beforeRender ⟨true, false, false, false⟩ VerificationReason.SIGN_UP none
          (Except.error ⟨"basket", "UNKNOWN_ERROR"⟩)).loggedErrors
        = [⟨"basket", "UNKNOWN_ERROR"⟩]) ∧
    (MarketingEmailErrors.created ⟨"basket", "UNKNOWN_ERROR"⟩ = false →
      logAndAbsorbMarketingClientErrors ⟨"basket", "UNKNOWN_ERROR"⟩
        = Except.error ⟨"basket", "UNKNOWN_ERROR"⟩) :=
  C4_marketing_errors_absorbed _ _ _ (by decide)

/-- C6: the rendered `canResend` is true exactly when a session token
exists for the cached email and the verification reason is sign-up,
and the display flags of the context are exactly the verification
info's validity states. -/
theorem C6_canResend_and_display_flags
    (vi : VerificationInfo) (me : Option ErrObj)
    (sessionToken : Option String) (reason : VerificationReason) :
    ((context vi me sessionToken reason).canResend = true ↔
      (hasResendSessionToken sessionToken = true ∧
       reason = VerificationReason.SIGN_UP)) ∧
    (context vi me sessionToken reason).canResend = canResend sessionToken reason ∧
    (context vi me sessionToken reason).isLinkDamaged = !vi.isValid ∧
    (context vi me sessionToken reason).isLinkExpired = vi.isExpired ∧
    (context vi me sessionToken reason).isLinkUsed = vi.isUsed ∧
    (context vi me sessionToken reason).error = me := by
  refine ⟨?_, rfl, rfl, rfl, rfl, rfl⟩
  simp [context, canResend, isSignUp, Bool.and_eq_true, beq_iff_eq]

/-- C7: on success the view logs `verification.success`, persists the
account, and invokes exactly the broker method that `BROKER_METHODS`
assigns to the verification reason (`afterCompleteSignUp` for SIGN_UP,
`afterCompleteSignIn` for SIGN_IN, `afterCompleteAddSecondaryEmail`
for SECONDARY_EMAIL_VERIFIED); on a (non-absorbed) failure it routes
into `_handleVerificationErrors` instead and no broker method runs. -/
theorem C7_success_invokes_reason_broker_method
    (vi : VerificationInfo) (reason : VerificationReason)
    (hv : vi.isValid = true) :
    BROKER_METHODS VerificationReason.SIGN_UP = "afterCompleteSignUp" ∧
    BROKER_METHODS VerificationReason.SIGN_IN = "afterCompleteSignIn" ∧
    BROKER_METHODS VerificationReason.SECONDARY_EMAIL_VERIFIED
      = "afterCompleteAddSecondaryEmail" ∧
    (beforeRender vi reason none (Except.ok ())).loggedEvents
      = ["verification.success"] ∧
    (beforeRender vi reason none (Except.ok ())).accountSaved = true ∧
    (beforeRender vi reason none (Except.ok ())).brokerMethod
      = some (BROKER_METHODS reason) ∧
    (∀ err : ErrObj, MarketingEmailErrors.created err = false →
      (beforeRender vi reason none (Except.error err)).brokerMethod = none ∧
      (beforeRender vi reason none (Except.error err)).accountSaved = false ∧
      (beforeRender vi reason none (Except.error err)).loggedErrors
        = [(handleVerificationErrors err (isSignIn reason) vi none).logged]) := by
  refine ⟨rfl, rfl, rfl, ?_, ?_, ?_, ?_⟩
  · simp [beforeRender, hv, notifyBrokerAndComplete]
  · simp [beforeRender, hv, notifyBrokerAndComplete]
  · simp [beforeRender, hv, notifyBrokerAndComplete]
  · intro err hm
    refine ⟨?_, ?_, ?_⟩ <;>
      simp [beforeRender, hv, logAndAbsorbMarketingClientErrors, hm]

/-- C7 witness at a valid link, the SIGN_IN reason and a concrete
non-marketing error. -/
theorem C7_witness :
    BROKER_METHODS VerificationReason.SIGN_UP = "afterCompleteSignUp" ∧
    BROKER_METHODS VerificationReason.SIGN_IN = "afterCompleteSignIn" ∧
    BROKER_METHODS VerificationReason.SECONDARY_EMAIL_VERIFIED
      = "afterCompleteAddSecondaryEmail" ∧
    (beforeRender ⟨true, false, false, false⟩ VerificationReason.SIGN_IN none
        (Except.ok ())).loggedEvents = ["verification.success"] ∧
    (beforeRender ⟨true, false, false, false⟩ VerificationReason.SIGN_IN none
        (Except.ok ())).accountSaved = true ∧
    (beforeRender ⟨true, false, false, false⟩ VerificationReason.SIGN_IN none
        (Except.ok ())).brokerMethod
      = some (BROKER_METHODS VerificationReason.SIGN_IN) ∧
    (∀ err : ErrObj, MarketingEmailErrors.created err = false →
      (beforeRender ⟨true, false, false, false⟩ VerificationReason.SIGN_IN none
          (Except.error err)).brokerMethod = none ∧
      (beforeRender ⟨true, false, false, false⟩ VerificationReason.SIGN_IN none
          (Except.error err)).accountSaved = false ∧
      (beforeRender ⟨true, false, false, false⟩ VerificationReason.SIGN_IN none
          (Except.error err)).loggedErrors
        = [(handleVerificationErrors err (isSignIn VerificationReason.SIGN_IN)
            ⟨true, false, false, false⟩ none).logged]) :=
  C7_success_invokes_reason_broker_method _ _ (by decide)

/-- C9: when the verification info fails validation, `beforeRender`
logs a DAMAGED_VERIFICATION_LINK error and aborts: the remote call is
never made, the account is not populated from the resume token, the
broker is not notified, and the rendered context has `isLinkDamaged`
true. -/
theorem C9_invalid_link_aborts
    (vi : VerificationInfo) (reason : VerificationReason) (me : Option ErrObj)
    (completeResult : Except ErrObj Unit)
    (sessionToken : Option String)
    (hv : vi.isValid = false) :
    (beforeRender vi reason me completeResult).loggedErrors
      = [AuthErrors.toError "DAMAGED_VERIFICATION_LINK"] ∧
    (beforeRender vi reason me completeResult).completeSignUpCalled = false ∧
    (beforeRender vi reason me completeResult).resumeTokenPopulated = false ∧
    (beforeRender vi reason me completeResult).accountSaved = false ∧
    (beforeRender vi reason me completeResult).brokerMethod = none ∧
    (context vi me sessionToken reason).isLinkDamaged = true := by
  refine ⟨?_, ?_, ?_, ?_, ?_, ?_⟩ <;>
    simp [beforeRender, context, hv]

/-- C9 witness at a concrete invalid verification info. -/
theorem C9_witness :
    (beforeRender ⟨false, false, false, false⟩ VerificationReason.SIGN_UP none
        (Except.ok ())).loggedErrors
      = [AuthErrors.toError "DAMAGED_VERIFICATION_LINK"] ∧
    (beforeRender ⟨false, false, false, false⟩ VerificationReason.SIGN_UP none
        (Except.ok ())).completeSignUpCalled = false ∧
    (beforeRender ⟨false, false, false, false⟩ VerificationReason.SIGN_UP none
        (Except.ok ())).resumeTokenPopulated = false ∧
    (beforeRender ⟨false, false, false, false⟩ VerificationReason.SIGN_UP none
        (Except.ok ())).accountSaved = false ∧
    (beforeRender ⟨false, false, false, false⟩ VerificationReason.SIGN_UP none
        (Except.ok ())).brokerMethod = none ∧
    (context ⟨false, false, false, false⟩ none none
        VerificationReason.SIGN_UP).isLinkDamaged = true :=
  C9_invalid_link_aborts _ _ _ _ _ (by decide)

/-! ### Claims about `FxDesktopV1Sender` -/

/-- C8: `FxDesktopV1Sender.send` dispatches on the window one DOM
CustomEvent whose type is exactly `FirefoxAccountsCommand` and whose
detail carries the given command, the given data, and `bubbles:
true`. -/
theorem C8_send_dispatches_firefox_accounts_command
    (win : DomWindow) (command : String) (data : String) (messageId : String) :
    (FxDesktopV1Sender.send win command data messageId).dispatchedEvents
      = win.dispatchedEvents
        ++ [{ eventType := "FirefoxAccountsCommand"
              bubbles := true
              command := command
              data := data }] := by
  simp [FxDesktopV1Sender.send, FxDesktopV1Sender.dispatchCommand,
    FxDesktopV1Sender.createEvent]

/-- C10: `FxDesktopV1Sender.send` is insensitive to its messageId
argument: for a fixed window, command and data, any two messageId
values produce the same dispatched events. -/
theorem C10_send_ignores_messageId
    (win : DomWindow) (command : String) (data : String)
    (messageId1 messageId2 : String) :
    FxDesktopV1Sender.send win command data messageId1
      = FxDesktopV1Sender.send win command data messageId2 := rfl

end FxaContentServer
